import Mathlib

/-!
Verification of the FlameWire mock RPC gateway (`src/main.py`) against its
natural-language specification.  The Python handlers are shallowly embedded
as pure Lean functions over a JSON-like value type; each spec claim is then
settled as a theorem about those functions.
-/

/-- A JSON-like value, as produced by the Python handlers (Python `None` is
`Value.null`). -/
inductive Value where
  | null : Value
  | bool (b : Bool) : Value
  | int (n : Int) : Value
  | str (s : String) : Value
  | arr (xs : List Value) : Value
  | obj (kvs : List (String × Value)) : Value

/-- Python truthiness (`bool(v)`) on the JSON-like values above: `None`,
`False`, `0`, `""`, `[]` and `{}` are falsy, everything else truthy. -/
def pyTruthy : Value → Bool
  | Value.null => false
  | Value.bool b => b
  | Value.int n => n != 0
  | Value.str s => s ≠ ""
  | Value.arr xs => !xs.isEmpty
  | Value.obj kvs => !kvs.isEmpty

/-- Python `str.lower()` restricted to ASCII, which covers every method name
the dispatch table compares against. -/
def pyLower (s : String) : String := String.mk (s.data.map Char.toLower)

/-- One entry of the static chain registry `SUPPORTED_CHAINS`. -/
structure Chain where
  name : String
  code : String
deriving DecidableEq, Repr

/-- The static five-entry registry from `src/main.py`. -/
def SUPPORTED_CHAINS : List Chain :=
  [ { name := "Ethereum", code := "eth" },
    { name := "Bittensor", code := "bittensor" },
    { name := "Sui", code := "sui" },
    { name := "Polkadot", code := "dot" },
    { name := "Solana", code := "sol" } ]

/-- The pydantic `RPCRequest` model after parsing: `method` is a required
string; an omitted `jsonrpc` parses to `"2.0"`; an omitted `id` parses to the
default `1`, an explicit `null` id parses to `Value.null`; omitted `params`
parse to `none`. -/
structure RPCRequest where
  jsonrpc : String := "2.0"
  method : String
  params : Option (List Value) := none
  id : Value := Value.int 1

/-- The pydantic `RPCResponse` model. -/
structure RPCResponse where
  jsonrpc : String := "2.0"
  id : Value
  result : Value

/-- The only error the dispatcher can raise: HTTP 404 "Unsupported chain". -/
inductive RPCError where
  | UnsupportedChain : RPCError
deriving DecidableEq, Repr

/-- `method = (payload.method or "").lower() if payload else ""`.  For the
required string field `method`, `payload.method or ""` is the identity
(lowercasing the empty string is the empty string), so this is a plain
lowercasing when a payload is present. -/
def methodOf : Option RPCRequest → String
  | some p => pyLower p.method
  | none => ""

/-- `rid = payload.id if payload and payload.id is not None else 1`. -/
def ridOf : Option RPCRequest → Value
  | some p =>
      match p.id with
      | Value.null => Value.int 1
      | v => v
  | none => Value.int 1

/-- The echoed `method` field of the fallback result: the request's method
with its original casing, or `None` when there is no payload. -/
def echoMethod : Option RPCRequest → Value
  | some p => Value.str p.method
  | none => Value.null

/-- The echoed `params` field:
`payload.params if payload and payload.params else []` (a missing payload,
missing params, or an empty params list all echo as `[]`). -/
def echoParams : Option RPCRequest → List Value
  | some p =>
      match p.params with
      | some ps => if ps.isEmpty then [] else ps
      | none => []
  | none => []

/-- The note string attached to every echo fallback. -/
def mockNote : String :=
  "Mock response. Connect real nodes/providers to enable live routing."

/-- The echo-fallback result object built by the final `return` of
`proxy_rpc`. -/
def fallbackResult (chain : String) (payload : Option RPCRequest) : Value :=
  Value.obj
    [ ("echo", Value.obj
        [ ("chain", Value.str chain),
          ("method", echoMethod payload),
          ("params", Value.arr (echoParams payload)) ]),
      ("note", Value.str mockNote) ]

/-- The body of `proxy_rpc`, parameterised by the chain registry it reads
(the module global `SUPPORTED_CHAINS` in the source). -/
def dispatchWith (chains : List Chain) (chain : String)
    (payload : Option RPCRequest) : Except RPCError RPCResponse :=
  if chain ∈ chains.map Chain.code then
    if chain = "eth" ∧ methodOf payload = "eth_blocknumber" then
      Except.ok { jsonrpc := "2.0", id := ridOf payload,
                  result := Value.str "0x12ab34" }
    else if chain = "sui" ∧ methodOf payload = "sui_getlatestcheckpointsequence" then
      Except.ok { jsonrpc := "2.0", id := ridOf payload,
                  result := Value.int 123456 }
    else if chain = "bittensor" ∧ methodOf payload = "subnet.get_state" then
      Except.ok { jsonrpc := "2.0", id := ridOf payload,
                  result := Value.obj [("subnets", Value.int 32)] }
    else
      Except.ok { jsonrpc := "2.0", id := ridOf payload,
                  result := fallbackResult chain payload }
  else
    Except.error RPCError.UnsupportedChain

/-- `proxy_rpc` as run against the static registry. -/
def dispatch (chain : String) (payload : Option RPCRequest) :
    Except RPCError RPCResponse :=
  dispatchWith SUPPORTED_CHAINS chain payload

/-- The five registered chain codes, in registry order. -/
def chainCodes : List String := SUPPORTED_CHAINS.map Chain.code

/-- One `proxy_rpc` call viewed as a transition on the server's ambient
state (the module-level registry it reads): it returns the response and the
state it was given. -/
def proxy_rpc_step (s : List Chain) (chain : String)
    (payload : Option RPCRequest) :
    List Chain × Except RPCError RPCResponse :=
  (s, dispatchWith s chain payload)

/-- Response shape of `GET /api/chains`. -/
structure ChainsResponse where
  chains : List Chain
deriving DecidableEq, Repr

/-- The `get_chains` handler. -/
def get_chains : ChainsResponse := { chains := SUPPORTED_CHAINS }

/-- The pydantic `ContactMessage` model (validation constraints are enforced
by pydantic before the handler body runs and do not affect it). -/
structure ContactMessage where
  name : String
  email : String
  message : String
deriving DecidableEq, Repr

/-- What the optional document store does on one `create_document` call:
the store may be absent (`db is None`), the call may raise, or it returns a
value (Python `None` being `Value.null`). -/
inductive StoreOutcome where
  | unavailable : StoreOutcome
  | raises : StoreOutcome
  | returns (v : Value) : StoreOutcome

/-- Response shape of `POST /api/contact`. -/
structure ContactResult where
  status : String
  stored : Bool
  id : Value

/-- The `doc_id` local of `submit_contact` after the `try/except` block. -/
def storeDocId : StoreOutcome → Value
  | StoreOutcome.unavailable => Value.null
  | StoreOutcome.raises => Value.null
  | StoreOutcome.returns v => v

/-- The `submit_contact` handler body, parameterised by the store outcome:
`{"status": "ok", "stored": bool(doc_id), "id": doc_id}`. -/
def submit_contact (_msg : ContactMessage) (store : StoreOutcome) :
    ContactResult :=
  let doc_id := storeDocId store
  { status := "ok", stored := pyTruthy doc_id, id := doc_id }

example : dispatch "xrp" none = Except.error RPCError.UnsupportedChain := rfl

example :
    dispatch "eth" (some { method := "eth_blockNumber" }) =
      Except.ok { jsonrpc := "2.0", id := Value.int 1,
                  result := Value.str "0x12ab34" } := rfl

/-- The registered chain codes are exactly the five literals. -/
lemma chainCodes_eq :
    SUPPORTED_CHAINS.map Chain.code = ["eth", "bittensor", "sui", "dot", "sol"] :=
  rfl

/-- On a supported chain the dispatcher always answers `ok` with
`jsonrpc = "2.0"` and `id = ridOf payload`, whichever branch is taken. -/
lemma dispatch_shape (chain : String) (payload : Option RPCRequest)
    (h : chain ∈ (["eth", "bittensor", "sui", "dot", "sol"] : List String)) :
    ∃ v : Value, dispatch chain payload =
      Except.ok { jsonrpc := "2.0", id := ridOf payload, result := v } := by
  unfold dispatch dispatchWith
  rw [chainCodes_eq, if_pos h]
  split_ifs <;> exact ⟨_, rfl⟩

/-- On a supported chain, when none of the three canned `(chain, method)`
pairs matches, the dispatcher returns the echo fallback. -/
lemma dispatch_fallback_eq (chain : String) (payload : Option RPCRequest)
    (hmem : chain ∈ (["eth", "bittensor", "sui", "dot", "sol"] : List String))
    (h1 : ¬(chain = "eth" ∧ methodOf payload = "eth_blocknumber"))
    (h2 : ¬(chain = "sui" ∧ methodOf payload = "sui_getlatestcheckpointsequence"))
    (h3 : ¬(chain = "bittensor" ∧ methodOf payload = "subnet.get_state")) :
    dispatch chain payload =
      Except.ok { jsonrpc := "2.0", id := ridOf payload,
                  result := fallbackResult chain payload } := by
  unfold dispatch dispatchWith
  rw [chainCodes_eq, if_pos hmem, if_neg h1, if_neg h2, if_neg h3]

/-- A non-null request id passes through `ridOf` unchanged. -/
lemma ridOf_some_of_ne (p : RPCRequest) (h : p.id ≠ Value.null) :
    ridOf (some p) = p.id := by
  obtain ⟨j, m, pa, i⟩ := p
  cases i <;> first | exact absurd rfl h | rfl

/-- A null request id is replaced by the default `1`. -/
lemma ridOf_some_null (p : RPCRequest) (h : p.id = Value.null) :
    ridOf (some p) = Value.int 1 := by
  obtain ⟨j, m, pa, i⟩ := p
  cases i <;> first | rfl | exact absurd h (by simp_all)

/-- The echoed params are the request's params, defaulting to `[]` when the
request carries none (an explicitly empty list also echoes as `[]`). -/
lemma echoParams_getD (p : RPCRequest) :
    echoParams (some p) = p.params.getD [] := by
  obtain ⟨j, m, pa, i⟩ := p
  cases pa with
  | none => rfl
  | some ps => cases ps <;> rfl


/-- C1: `proxy_rpc` raises `UnsupportedChain` (HTTP 404) if and only if the
chain path parameter is not exactly one of the five registered codes, with
case-sensitive comparison; for every supported chain code the call succeeds
regardless of the method name (or the absence of a payload). -/
theorem dispatch_unsupported_chain_iff (chain : String)
    (payload : Option RPCRequest) :
    (dispatch chain payload = Except.error RPCError.UnsupportedChain ↔
      chain ∉ (["eth", "bittensor", "sui", "dot", "sol"] : List String)) ∧
    (chain ∈ (["eth", "bittensor", "sui", "dot", "sol"] : List String) →
      ∃ r, dispatch chain payload = Except.ok r) := by
  constructor
  · constructor
    · intro he hmem
      obtain ⟨v, hv⟩ := dispatch_shape chain payload hmem
      rw [hv] at he
      exact Except.noConfusion he
    · intro hnm
      unfold dispatch dispatchWith
      rw [chainCodes_eq, if_neg hnm]
  · intro hmem
    obtain ⟨v, hv⟩ := dispatch_shape chain payload hmem
    exact ⟨_, hv⟩

/-- Witness for C1: `"xrp"` (unsupported, case-sensitive registry miss) is
rejected, while `"eth"` succeeds even with no payload. -/
theorem dispatch_unsupported_chain_iff_witness :
    dispatch "xrp" none = Except.error RPCError.UnsupportedChain ∧
    (∃ r, dispatch "eth" none = Except.ok r) ∧
    dispatch "ETH" none = Except.error RPCError.UnsupportedChain :=
  ⟨(dispatch_unsupported_chain_iff "xrp" none).1.2 (by decide),
   (dispatch_unsupported_chain_iff "eth" none).2 (by decide),
   (dispatch_unsupported_chain_iff "ETH" none).1.2 (by decide)⟩

/-- C2: whenever the request's method lowercases to a registered table key,
the dispatcher returns exactly the canned result for that (chain, method)
pair; the method comparison is case-insensitive. -/
theorem dispatch_canned_results (p : RPCRequest) :
    (pyLower p.method = "eth_blocknumber" →
      ∃ r, dispatch "eth" (some p) = Except.ok r ∧
        r.result = Value.str "0x12ab34") ∧
    (pyLower p.method = "sui_getlatestcheckpointsequence" →
      ∃ r, dispatch "sui" (some p) = Except.ok r ∧
        r.result = Value.int 123456) ∧
    (pyLower p.method = "subnet.get_state" →
      ∃ r, dispatch "bittensor" (some p) = Except.ok r ∧
        r.result = Value.obj [("subnets", Value.int 32)]) := by
  refine ⟨fun h => ?_, fun h => ?_, fun h => ?_⟩
  · have hd : dispatch "eth" (some p) =
        Except.ok { jsonrpc := "2.0", id := ridOf (some p),
                    result := Value.str "0x12ab34" } := by
      unfold dispatch dispatchWith
      rw [chainCodes_eq, if_pos (by decide), if_pos ⟨rfl, h⟩]
    exact ⟨_, hd, rfl⟩
  · have hd : dispatch "sui" (some p) =
        Except.ok { jsonrpc := "2.0", id := ridOf (some p),
                    result := Value.int 123456 } := by
      unfold dispatch dispatchWith
      rw [chainCodes_eq, if_pos (by decide),
          if_neg (fun hh => absurd hh.1 (by decide)), if_pos ⟨rfl, h⟩]
    exact ⟨_, hd, rfl⟩
  · have hd : dispatch "bittensor" (some p) =
        Except.ok { jsonrpc := "2.0", id := ridOf (some p),
                    result := Value.obj [("subnets", Value.int 32)] } := by
      unfold dispatch dispatchWith
      rw [chainCodes_eq, if_pos (by decide),
          if_neg (fun hh => absurd hh.1 (by decide)),
          if_neg (fun hh => absurd hh.1 (by decide)), if_pos ⟨rfl, h⟩]
    exact ⟨_, hd, rfl⟩

/-- Witness for C2: the three canned pairs, each supplied with the
mixed-case method spelling from the spec. -/
theorem dispatch_canned_results_witness :
    (∃ r, dispatch "eth" (some { method := "eth_blockNumber" }) =
        Except.ok r ∧ r.result = Value.str "0x12ab34") ∧
    (∃ r, dispatch "sui" (some { method := "sui_getLatestCheckpointSequence" }) =
        Except.ok r ∧ r.result = Value.int 123456) ∧
    (∃ r, dispatch "bittensor" (some { method := "subnet.get_state" }) =
        Except.ok r ∧ r.result = Value.obj [("subnets", Value.int 32)]) :=
  ⟨(dispatch_canned_results { method := "eth_blockNumber" }).1 rfl,
   (dispatch_canned_results { method := "sui_getLatestCheckpointSequence" }).2.1 rfl,
   (dispatch_canned_results { method := "subnet.get_state" }).2.2 rfl⟩

/-- C3: on a supported chain, any request whose (chain, lowercased method)
pair misses the canned table yields the echo fallback: a `note` field plus an
`echo` object carrying the chain, the method with its original casing, and
the request's params (an empty sequence when absent). -/
theorem dispatch_echo_fallback (chain : String) (p : RPCRequest)
    (hmem : chain ∈ (["eth", "bittensor", "sui", "dot", "sol"] : List String))
    (h1 : ¬(chain = "eth" ∧ pyLower p.method = "eth_blocknumber"))
    (h2 : ¬(chain = "sui" ∧ pyLower p.method = "sui_getlatestcheckpointsequence"))
    (h3 : ¬(chain = "bittensor" ∧ pyLower p.method = "subnet.get_state")) :
    ∃ r, dispatch chain (some p) = Except.ok r ∧
      r.result = Value.obj
        [ ("echo", Value.obj
            [ ("chain", Value.str chain),
              ("method", Value.str p.method),
              ("params", Value.arr (p.params.getD [])) ]),
          ("note", Value.str mockNote) ] := by
  refine ⟨_, dispatch_fallback_eq chain (some p) hmem h1 h2 h3, ?_⟩
  show fallbackResult chain (some p) = _
  unfold fallbackResult
  rw [echoParams_getD]
  rfl

/-- Witness for C3: an unrecognized mixed-case method on chain `dot`, with
params present, echoes back chain, original method casing and params. -/
theorem dispatch_echo_fallback_witness :
    ∃ r, dispatch "dot"
        (some { method := "Foo_Method", params := some [Value.int 7],
                id := Value.int 5 }) = Except.ok r ∧
      r.result = Value.obj
        [ ("echo", Value.obj
            [ ("chain", Value.str "dot"),
              ("method", Value.str "Foo_Method"),
              ("params", Value.arr [Value.int 7]) ]),
          ("note", Value.str mockNote) ] :=
  dispatch_echo_fallback "dot"
    { method := "Foo_Method", params := some [Value.int 7], id := Value.int 5 }
    (by decide) (by decide) (by decide) (by decide)

/-- C4: on every supported chain and every return path, the response `id`
echoes the request's `id` when it is present and non-null, and is `1` when
the payload is missing or its `id` is null (an omitted `id` parses to the
pydantic default `1` and is echoed by the first case). -/
theorem dispatch_id_echo (chain : String) (payload : Option RPCRequest)
    (hmem : chain ∈ (["eth", "bittensor", "sui", "dot", "sol"] : List String)) :
    ∃ r, dispatch chain payload = Except.ok r ∧
      (∀ p, payload = some p → p.id ≠ Value.null → r.id = p.id) ∧
      (∀ p, payload = some p → p.id = Value.null → r.id = Value.int 1) ∧
      (payload = none → r.id = Value.int 1) := by
  obtain ⟨v, hv⟩ := dispatch_shape chain payload hmem
  refine ⟨_, hv, ?_, ?_, ?_⟩
  · rintro p rfl hne
    exact ridOf_some_of_ne p hne
  · rintro p rfl hnull
    exact ridOf_some_null p hnull
  · rintro rfl
    rfl

/-- Witness for C4: a string id is echoed verbatim, an explicit null id and a
missing payload both default to `1` (here on the canned `eth` path and the
echo path respectively). -/
theorem dispatch_id_echo_witness :
    (∃ r, dispatch "eth"
        (some { method := "eth_blockNumber", id := Value.str "req-9" }) =
        Except.ok r ∧ r.id = Value.str "req-9") ∧
    (∃ r, dispatch "sol" (some { method := "x", id := Value.null }) =
        Except.ok r ∧ r.id = Value.int 1) ∧
    (∃ r, dispatch "dot" none = Except.ok r ∧ r.id = Value.int 1) := by
  refine ⟨?_, ?_, ?_⟩
  · obtain ⟨r, hr, ha, -, -⟩ :=
      dispatch_id_echo "eth"
        (some { method := "eth_blockNumber", id := Value.str "req-9" })
        (by decide)
    exact ⟨r, hr, ha _ rfl (fun h => Value.noConfusion h)⟩
  · obtain ⟨r, hr, -, hb, -⟩ :=
      dispatch_id_echo "sol" (some { method := "x", id := Value.null })
        (by decide)
    exact ⟨r, hr, hb _ rfl rfl⟩
  · obtain ⟨r, hr, -, -, hc⟩ := dispatch_id_echo "dot" none (by decide)
    exact ⟨r, hr, hc rfl⟩

/-- C5: on every supported chain and every return path, the response
`jsonrpc` field is the constant `"2.0"`, and the response is entirely
independent of the `jsonrpc` value supplied in the request. -/
theorem dispatch_jsonrpc_const (chain : String) (payload : Option RPCRequest)
    (hmem : chain ∈ (["eth", "bittensor", "sui", "dot", "sol"] : List String)) :
    (∃ r, dispatch chain payload = Except.ok r ∧ r.jsonrpc = "2.0") ∧
    ∀ (p : RPCRequest) (j : String),
      dispatch chain (some { p with jsonrpc := j }) = dispatch chain (some p) := by
  obtain ⟨v, hv⟩ := dispatch_shape chain payload hmem
  exact ⟨⟨_, hv, rfl⟩, fun p j => rfl⟩

/-- Witness for C5: a request claiming `jsonrpc = "1.0"` is answered with
`"2.0"`, and changing the request's `jsonrpc` to `"9.9"` changes nothing. -/
theorem dispatch_jsonrpc_const_witness :
    (∃ r, dispatch "sui" (some { jsonrpc := "1.0", method := "m" }) =
        Except.ok r ∧ r.jsonrpc = "2.0") ∧
    dispatch "sui" (some { jsonrpc := "9.9", method := "m" }) =
      dispatch "sui" (some { jsonrpc := "2.0", method := "m" }) := by
  obtain ⟨h1, h2⟩ :=
    dispatch_jsonrpc_const "sui" (some { jsonrpc := "1.0", method := "m" })
      (by decide)
  exact ⟨h1, h2 { jsonrpc := "2.0", method := "m" } "9.9"⟩

/-- C6: `proxy_rpc` is pure and deterministic: a call leaves the ambient
state (the registry it reads) unchanged, a second call with the same chain
and request returns the identical response, and the response is a function
of (chain, request) and the static registry alone. -/
theorem dispatch_deterministic_stateless (chain : String)
    (payload : Option RPCRequest) :
    (proxy_rpc_step SUPPORTED_CHAINS chain payload).1 = SUPPORTED_CHAINS ∧
    (proxy_rpc_step (proxy_rpc_step SUPPORTED_CHAINS chain payload).1
        chain payload).2 =
      (proxy_rpc_step SUPPORTED_CHAINS chain payload).2 ∧
    (proxy_rpc_step SUPPORTED_CHAINS chain payload).2 = dispatch chain payload :=
  ⟨rfl, rfl, rfl⟩

/-- C7: `GET /api/chains` returns `{chains: SUPPORTED_CHAINS}`, and that
registry is exactly the static five entries
Ethereum/eth, Bittensor/bittensor, Sui/sui, Polkadot/dot, Solana/sol. -/
theorem get_chains_static_registry :
    get_chains = { chains := SUPPORTED_CHAINS } ∧
    get_chains.chains =
      [ { name := "Ethereum", code := "eth" },
        { name := "Bittensor", code := "bittensor" },
        { name := "Sui", code := "sui" },
        { name := "Polkadot", code := "dot" },
        { name := "Solana", code := "sol" } ] :=
  ⟨rfl, rfl⟩

/-- C8: with no payload at all, dispatch on any supported chain still
succeeds with the echo fallback: `echo.method` is null, `echo.params` is the
empty sequence, and `id` is the default `1`. -/
theorem dispatch_none_payload (chain : String)
    (hmem : chain ∈ (["eth", "bittensor", "sui", "dot", "sol"] : List String)) :
    dispatch chain none = Except.ok
      { jsonrpc := "2.0", id := Value.int 1,
        result := Value.obj
          [ ("echo", Value.obj
              [ ("chain", Value.str chain),
                ("method", Value.null),
                ("params", Value.arr []) ]),
            ("note", Value.str mockNote) ] } := by
  rw [dispatch_fallback_eq chain none hmem
        (fun hh => absurd hh.2 (by decide))
        (fun hh => absurd hh.2 (by decide))
        (fun hh => absurd hh.2 (by decide))]
  rfl

/-- Witness for C8: a payload-less call on chain `sol`. -/
theorem dispatch_none_payload_witness :
    dispatch "sol" none = Except.ok
      { jsonrpc := "2.0", id := Value.int 1,
        result := Value.obj
          [ ("echo", Value.obj
              [ ("chain", Value.str "sol"),
                ("method", Value.null),
                ("params", Value.arr []) ]),
            ("note", Value.str mockNote) ] } :=
  dispatch_none_payload "sol" (by decide)

/-- C9: a canned result is bound to its exact registered (chain, method)
pair: on any supported chain, a request missing all three registered pairs
gets the echo fallback, which is not equal to any of the three canned
results. -/
theorem dispatch_no_cross_chain_canned (chain : String) (p : RPCRequest)
    (hmem : chain ∈ (["eth", "bittensor", "sui", "dot", "sol"] : List String))
    (h1 : ¬(chain = "eth" ∧ pyLower p.method = "eth_blocknumber"))
    (h2 : ¬(chain = "sui" ∧ pyLower p.method = "sui_getlatestcheckpointsequence"))
    (h3 : ¬(chain = "bittensor" ∧ pyLower p.method = "subnet.get_state")) :
    ∃ r, dispatch chain (some p) = Except.ok r ∧
      r.result = fallbackResult chain (some p) ∧
      r.result ≠ Value.str "0x12ab34" ∧
      r.result ≠ Value.int 123456 ∧
      r.result ≠ Value.obj [("subnets", Value.int 32)] := by
  refine ⟨_, dispatch_fallback_eq chain (some p) hmem h1 h2 h3, rfl, ?_, ?_, ?_⟩
  · exact fun h => Value.noConfusion h
  · exact fun h => Value.noConfusion h
  · intro h
    simp only [fallbackResult, Value.obj.injEq, List.cons.injEq,
      Prod.mk.injEq] at h
    exact List.cons_ne_nil _ _ h.2

/-- Witness for C9: chain `dot` with `eth`'s registered method name gets the
echo fallback, not `eth`'s canned result. -/
theorem dispatch_no_cross_chain_canned_witness :
    ∃ r, dispatch "dot" (some { method := "eth_blocknumber" }) =
        Except.ok r ∧
      r.result = fallbackResult "dot" (some { method := "eth_blocknumber" }) ∧
      r.result ≠ Value.str "0x12ab34" ∧
      r.result ≠ Value.int 123456 ∧
      r.result ≠ Value.obj [("subnets", Value.int 32)] :=
  dispatch_no_cross_chain_canned "dot" { method := "eth_blocknumber" }
    (by decide) (by decide) (by decide) (by decide)

/-- Counterexample to C10 as stated: when `create_document` returns the
non-null document id `0`, the endpoint returns `stored = false` even though
a non-null id was produced (and echoed in the `id` field), because the
source computes `stored` as `bool(doc_id)`, i.e. Python truthiness. -/
theorem submit_contact_stored_not_nonnull :
    (submit_contact
        { name := "Alice", email := "alice@example.com",
          message := "Hello there" }
        (StoreOutcome.returns (Value.int 0))).stored = false ∧
    (submit_contact
        { name := "Alice", email := "alice@example.com",
          message := "Hello there" }
        (StoreOutcome.returns (Value.int 0))).id = Value.int 0 ∧
    Value.int 0 ≠ Value.null :=
  ⟨rfl, rfl, fun h => Value.noConfusion h⟩

/-- C10 (amended): `POST /api/contact` never fails because of storage: the
status is always `"ok"`; if the store is unavailable or `create_document`
raises, the response is `{status: "ok", stored: false, id: null}`; and
`stored` is true exactly when a truthy document id was produced (non-null
and not `0`, `""`, `false` or an empty collection). -/
theorem submit_contact_storage_safe (msg : ContactMessage)
    (store : StoreOutcome) :
    (submit_contact msg store).status = "ok" ∧
    ((submit_contact msg store).stored = true ↔
      pyTruthy (submit_contact msg store).id = true) ∧
    (store = StoreOutcome.unavailable ∨ store = StoreOutcome.raises →
      submit_contact msg store =
        { status := "ok", stored := false, id := Value.null }) := by
  refine ⟨rfl, Iff.rfl, fun h => ?_⟩
  rcases h with h | h <;> rw [h] <;> rfl

/-- Witness for C10 (amended): an unavailable store still answers
`{status: "ok", stored: false, id: null}`. -/
theorem submit_contact_storage_safe_witness :
    submit_contact
        { name := "Alice", email := "alice@example.com",
          message := "Hello there" }
        StoreOutcome.unavailable =
      { status := "ok", stored := false, id := Value.null } :=
  (submit_contact_storage_safe
      { name := "Alice", email := "alice@example.com",
        message := "Hello there" }
      StoreOutcome.unavailable).2.2 (Or.inl rfl)
